import Mathlib

/-!
Verification development for a thin HTTP façade over stored procedures that
manages bank accounts (create, list, update status).  The database is
external: each service call's interaction with it is represented explicitly
as a `DbResult` input (either the rows the follow-up SELECT produced, or an
exception raised by the driver).  The service layer
(`app/services/account_service.py`) and the API layer
(`app/api/v1/endpoints/accounts.py`) are embedded as pure functions from
that database behaviour to outcomes.
-/

/-- Python exceptions, as far as the endpoints distinguish them:
`ValueError` (the declared business error, carrying the procedure's message)
versus any other `Exception` (carrying some text). -/
inductive Exc where
  | valueError (msg : String)
  | otherError (msg : String)
deriving DecidableEq, Repr

/-- Behaviour of the database during one service call: either the driver
raises an exception, or the procedure call succeeds and the follow-up
`SELECT` of the session output variables yields `r` (for the write
operations `r` is `Option row`, `.first()` of the result set). -/
inductive DbResult (ρ : Type) where
  | raises (e : Exc)
  | returns (r : ρ)
deriving DecidableEq, Repr

/-- What a service-layer call produces: a normal return value or a raised
exception, together with whether `session.rollback()` ran.  In the source
every service body is wrapped in `try/except Exception: rollback; raise`. -/
structure ServiceOutcome (α : Type) where
  result : Except Exc α
  rolledBack : Bool
deriving Repr

/-- Row of `SELECT @p_Out_NroCta AS NroCta, @p_Out_Message AS Mensaje`. -/
structure CreateRow where
  NroCta : String
  Mensaje : String
deriving DecidableEq, Repr

/-- The dictionary `{"NroCta": ..., "MensajeSP": ...}` returned by the
create and update service functions on success. -/
structure SpSuccess where
  NroCta : String
  MensajeSP : String
deriving DecidableEq, Repr

/-- Modelled from the spec: account creation request (account type,
currency, initial balance, owning user code); `app/schemas/account.py` is
not in the sources.  The service only forwards these to the stored
procedure, so the field types do not affect any outcome. -/
structure CuentaCreationData where
  TipoCta : String
  Moneda : String
  SaldoInicial : Int
  CodUsu : String
deriving DecidableEq, Repr

/-- Modelled from the spec: status-update request (account number, new
status code, modifying user code); `app/schemas/account.py` is not in the
sources. -/
structure CuentaEstadoUpdate where
  nro_cta : String
  nuevo_estado : String
  cod_usu_modifica : String
deriving DecidableEq, Repr

/-- Modelled from the spec: the listing DTO is a read-only projection whose
fields are whatever the procedure's result set contains, re-exposed
unchanged; we model a row as a list of column-name/value pairs. -/
structure CuentaDetailsDTO where
  fields : List (String × String)
deriving DecidableEq, Repr

/-- Python `str.lower` on one character, restricted to the alphabets the
messages use: ASCII `A`–`Z` and the Latin-1 uppercase letters `À`–`Þ`
(except `×`) map to the code point 32 higher, as CPython does. -/
def pyLowerChar (c : Char) : Char :=
  let n := c.toNat
  if 65 ≤ n ∧ n ≤ 90 then Char.ofNat (n + 32)
  else if 192 ≤ n ∧ n ≤ 222 ∧ n ≠ 215 then Char.ofNat (n + 32)
  else c

/-- Python `str.lower`, character by character. -/
def pyLower (s : String) : String :=
  String.mk (s.data.map pyLowerChar)

/-- Python `s.startswith(p)`: `p` is a prefix of `s` (on code points). -/
def pyStartswith (s p : String) : Bool :=
  List.isPrefixOf p.data s.data

/-- `insertar_nueva_cuenta_sp` (account_service.py, lines 10-64): call
`sp_InsertarNuevaCuenta`, read `@p_Out_NroCta, @p_Out_Message` back; raise
a plain `Exception` when the OUT SELECT yields no row, a
`ValueError output_message` when the message does not start
(case-insensitively) with `éxito`, and otherwise return the dictionary with
the generated account number and the message.  Any exception passes through
`except Exception: session.rollback(); raise`. -/
def insertar_nueva_cuenta_sp (db : DbResult (Option CreateRow))
    (datos : CuentaCreationData) : ServiceOutcome SpSuccess :=
  let _ := datos
  match db with
  | DbResult.raises e => ⟨Except.error e, true⟩
  | DbResult.returns none =>
      ⟨Except.error (Exc.otherError
          "La base de datos no devolvió el resultado del OUT SELECT."), true⟩
  | DbResult.returns (some row) =>
      if !(pyStartswith (pyLower row.Mensaje) "éxito") then
        ⟨Except.error (Exc.valueError row.Mensaje), true⟩
      else
        ⟨Except.ok ⟨row.NroCta, row.Mensaje⟩, false⟩

/-- `listar_cuentas_sp` (account_service.py, lines 67-88): normalise the
user filter (`None` or the empty string become `None`), call
`sp_ListarCuentas(:p_CodUsu)` and map every returned row to a DTO; on any
exception roll back and re-raise.  The database is a function from the
normalised filter to its behaviour, so that the effect of the
normalisation is observable.  Line 70's cleaning
`p_cod_usu = cod_usu_input if cod_usu_input and cod_usu_input != '' else None`
(`None` and `''` are the falsy strings) is `limpiar_cod_usu`. -/
def limpiar_cod_usu (cod_usu_input : Option String) : Option String :=
  match cod_usu_input with
  | some s => if s ≠ "" then some s else none
  | none => none

/-- `listar_cuentas_sp` continued: dispatch on the database's behaviour at
the cleaned filter. -/
def listar_cuentas_sp (db : Option String → DbResult (List CuentaDetailsDTO))
    (cod_usu_input : Option String) : ServiceOutcome (List CuentaDetailsDTO) :=
  match db (limpiar_cod_usu cod_usu_input) with
  | DbResult.raises e => ⟨Except.error e, true⟩
  | DbResult.returns rows => ⟨Except.ok rows, false⟩

/-- `actualizar_estado_cuenta_sp` (account_service.py, lines 91-136): call
`sp_ActualizarEstadoCuenta` (whose only OUT parameter is
`@p_Out_Message`), read the message back; raise a plain `Exception` when
the SELECT yields no row, a `ValueError output_message` when the message
does not start (case-insensitively) with `éxito`, and otherwise return the
dictionary echoing the request's account number together with the message.
Any exception passes through `except Exception: rollback; raise`. -/
def actualizar_estado_cuenta_sp (db : DbResult (Option String))
    (datos : CuentaEstadoUpdate) : ServiceOutcome SpSuccess :=
  match db with
  | DbResult.raises e => ⟨Except.error e, true⟩
  | DbResult.returns none =>
      ⟨Except.error (Exc.otherError
          "La base de datos no devolvió el mensaje de estado."), true⟩
  | DbResult.returns (some msg) =>
      if !(pyStartswith (pyLower msg) "éxito") then
        ⟨Except.error (Exc.valueError msg), true⟩
      else
        ⟨Except.ok ⟨datos.nro_cta, msg⟩, false⟩

/-- `APIResponse` (app/schemas/util.py, lines 8-15): the standardized
response envelope; `codigo` and `result` default to `None`. -/
structure APIResponse where
  mensaje : String
  codigo : Option String := none
  status_code : Nat
  result : Option (List CuentaDetailsDTO) := none
deriving DecidableEq, Repr

/-- An HTTP response: the wire status code and the envelope the endpoint
put in the body (directly for the 2xx returns, as the `detail` of the
raised `HTTPException` for the error paths). -/
structure HttpResponse where
  status : Nat
  body : APIResponse
deriving DecidableEq, Repr

/-- `crear_nueva_cuenta` (accounts.py, lines 21-70): POST
`/crearCuentasBancarias`.  Success is 201 with the procedure's message and
the generated account number as `codigo`; a `ValueError` becomes 400
carrying its message and `codigo=""`; any other exception becomes 500 with
the fixed generic message. -/
def crear_nueva_cuenta (db : DbResult (Option CreateRow))
    (datos_cuenta : CuentaCreationData) : HttpResponse :=
  match (insertar_nueva_cuenta_sp db datos_cuenta).result with
  | Except.ok r =>
      ⟨201, { mensaje := r.MensajeSP, codigo := some r.NroCta, status_code := 201 }⟩
  | Except.error (Exc.valueError m) =>
      ⟨400, { mensaje := m, codigo := some "", status_code := 400 }⟩
  | Except.error (Exc.otherError _) =>
      ⟨500, { mensaje := "Ocurrió un error interno del servidor.",
              codigo := some "", status_code := 500 }⟩

/-- `listar_cuentas` (accounts.py, lines 79-130): GET
`/getCuentasBancarias`.  An empty result with a non-`None`, non-empty
filter gets the distinct `LIST-OK-EMPTY` envelope; otherwise 200 with the
count message and the rows; any exception becomes 500 with the fixed
generic message and `codigo="SYS-500"`. -/
def listar_cuentas (db : Option String → DbResult (List CuentaDetailsDTO))
    (cod_usu : Option String) : HttpResponse :=
  match (listar_cuentas_sp db cod_usu).result with
  | Except.ok lista =>
      match cod_usu with
      | some u =>
          if lista.isEmpty && u != "" then
            ⟨200, { mensaje := "No se encontraron cuentas para el usuario: " ++ u ++ ".",
                    codigo := some "LIST-OK-EMPTY", status_code := 200,
                    result := some [] }⟩
          else
            ⟨200, { mensaje := "Consulta exitosa. Se encontraron " ++
                      toString lista.length ++ " cuentas.",
                    codigo := some "LIST-OK", status_code := 200,
                    result := some lista }⟩
      | none =>
          ⟨200, { mensaje := "Consulta exitosa. Se encontraron " ++
                    toString lista.length ++ " cuentas.",
                  codigo := some "LIST-OK", status_code := 200,
                  result := some lista }⟩
  | Except.error _ =>
      ⟨500, { mensaje := "Ocurrió un error interno del servidor durante la consulta.",
              codigo := some "SYS-500", status_code := 500 }⟩

/-- `actualizar_estado` (accounts.py, lines 139-188): PATCH
`/updateEstadoCuenta`.  Success is 200 echoing the account number as
`codigo`; a `ValueError` whose message starts with the exact text
`Error: No se encontró` becomes 404, any other `ValueError` 400, both
carrying the message; any other exception becomes 500 with the fixed
generic message. -/
def actualizar_estado (db : DbResult (Option String))
    (datos_actualizacion : CuentaEstadoUpdate) : HttpResponse :=
  match (actualizar_estado_cuenta_sp db datos_actualizacion).result with
  | Except.ok r =>
      ⟨200, { mensaje := r.MensajeSP, codigo := some r.NroCta, status_code := 200 }⟩
  | Except.error (Exc.valueError m) =>
      let error_code : Nat :=
        if pyStartswith m "Error: No se encontró" then 404 else 400
      ⟨error_code, { mensaje := m, codigo := some "", status_code := error_code }⟩
  | Except.error (Exc.otherError _) =>
      ⟨500, { mensaje := "Ocurrió un error interno del servidor.",
              codigo := some "", status_code := 500 }⟩

/-- Whether a service call ended in a raised exception. -/
def ServiceOutcome.raised {α : Type} (o : ServiceOutcome α) : Bool :=
  match o.result with
  | Except.error _ => true
  | Except.ok _ => false

/-- C1: a create-account call whose stored-procedure reply message begins
with `Éxito` in any letter case returns HTTP 201 with the procedure's
message as `mensaje` and the procedure's output account number as
`codigo`; the reply is treated as success exactly when its lowercased form
starts with `éxito`. -/
theorem create_success_contract (datos : CuentaCreationData) (row : CreateRow) :
    ((crear_nueva_cuenta (DbResult.returns (some row)) datos).status = 201 ↔
        pyStartswith (pyLower row.Mensaje) "éxito" = true) ∧
    (pyStartswith (pyLower row.Mensaje) "éxito" = true →
        crear_nueva_cuenta (DbResult.returns (some row)) datos =
          ⟨201, { mensaje := row.Mensaje, codigo := some row.NroCta,
                  status_code := 201 }⟩) := by
  cases hb : pyStartswith (pyLower row.Mensaje) "éxito" <;>
    simp [crear_nueva_cuenta, insertar_nueva_cuenta_sp, hb]

/-- C1 witness: a reply starting with `Éxito` (mixed case) yields the 201
envelope with the generated account number. -/
theorem create_success_contract_witness :
    crear_nueva_cuenta (DbResult.returns (some ⟨"0001", "Éxito: Cuenta creada"⟩))
        ⟨"AH", "PEN", 100, "USR01"⟩ =
      ⟨201, { mensaje := "Éxito: Cuenta creada", codigo := some "0001",
              status_code := 201 }⟩ :=
  (create_success_contract ⟨"AH", "PEN", 100, "USR01"⟩
      ⟨"0001", "Éxito: Cuenta creada"⟩).2 (by decide)

/-- C2: a create-account call whose reply does not begin with `éxito`
(case-insensitively) makes the service raise `ValueError` with that
message and the endpoint answer 400 with the reply text as `mensaje`. -/
theorem create_failure_contract (datos : CuentaCreationData) (row : CreateRow)
    (h : pyStartswith (pyLower row.Mensaje) "éxito" = false) :
    (insertar_nueva_cuenta_sp (DbResult.returns (some row)) datos).result =
        Except.error (Exc.valueError row.Mensaje) ∧
    crear_nueva_cuenta (DbResult.returns (some row)) datos =
      ⟨400, { mensaje := row.Mensaje, codigo := some "", status_code := 400 }⟩ := by
  simp [crear_nueva_cuenta, insertar_nueva_cuenta_sp, h]

/-- C2 witness: an `Error:`-prefixed reply yields the 400 envelope carrying
the reply text. -/
theorem create_failure_contract_witness :
    (insertar_nueva_cuenta_sp
        (DbResult.returns (some ⟨"", "Error: Cliente no existe"⟩))
        ⟨"AH", "PEN", 100, "USR01"⟩).result =
      Except.error (Exc.valueError "Error: Cliente no existe") ∧
    crear_nueva_cuenta (DbResult.returns (some ⟨"", "Error: Cliente no existe"⟩))
        ⟨"AH", "PEN", 100, "USR01"⟩ =
      ⟨400, { mensaje := "Error: Cliente no existe", codigo := some "",
              status_code := 400 }⟩ :=
  create_failure_contract ⟨"AH", "PEN", 100, "USR01"⟩
    ⟨"", "Error: Cliente no existe"⟩ (by decide)

/-- C3: a status-update call with a non-success reply answers 404 when the
reply starts with the exact text `Error: No se encontró`, and 400 for any
other non-success reply, carrying the reply text as `mensaje`. -/
theorem update_failure_contract (datos : CuentaEstadoUpdate) (msg : String)
    (h : pyStartswith (pyLower msg) "éxito" = false) :
    (pyStartswith msg "Error: No se encontró" = true →
        actualizar_estado (DbResult.returns (some msg)) datos =
          ⟨404, { mensaje := msg, codigo := some "", status_code := 404 }⟩) ∧
    (pyStartswith msg "Error: No se encontró" = false →
        actualizar_estado (DbResult.returns (some msg)) datos =
          ⟨400, { mensaje := msg, codigo := some "", status_code := 400 }⟩) := by
  cases h4 : pyStartswith msg "Error: No se encontró" <;>
    simp [actualizar_estado, actualizar_estado_cuenta_sp, h, h4]

/-- C3 witness: a not-found reply maps to 404 and another business error
maps to 400, each carrying its reply text. -/
theorem update_failure_contract_witness :
    actualizar_estado (DbResult.returns (some "Error: No se encontró la cuenta."))
        ⟨"0001", "B", "USR01"⟩ =
      ⟨404, { mensaje := "Error: No se encontró la cuenta.", codigo := some "",
              status_code := 404 }⟩ ∧
    actualizar_estado (DbResult.returns (some "Error: Estado no permitido."))
        ⟨"0001", "B", "USR01"⟩ =
      ⟨400, { mensaje := "Error: Estado no permitido.", codigo := some "",
              status_code := 400 }⟩ :=
  ⟨(update_failure_contract ⟨"0001", "B", "USR01"⟩
      "Error: No se encontró la cuenta." (by decide)).1 (by decide),
   (update_failure_contract ⟨"0001", "B", "USR01"⟩
      "Error: Estado no permitido." (by decide)).2 (by decide)⟩

/-- C4: a listing call whose user filter is neither `None` nor the empty
string and whose procedure yields zero rows answers 200 with reference
code `LIST-OK-EMPTY` and an empty result list. -/
theorem list_empty_with_filter (db : Option String → DbResult (List CuentaDetailsDTO))
    (u : String) (hu : u ≠ "") (hdb : db (some u) = DbResult.returns []) :
    listar_cuentas db (some u) =
      ⟨200, { mensaje := "No se encontraron cuentas para el usuario: " ++ u ++ ".",
              codigo := some "LIST-OK-EMPTY", status_code := 200,
              result := some [] }⟩ := by
  simp [listar_cuentas, listar_cuentas_sp, limpiar_cod_usu, hu, hdb]

/-- C4 witness: filter `USR01` with an empty result set gets the
`LIST-OK-EMPTY` envelope. -/
theorem list_empty_with_filter_witness :
    listar_cuentas (fun _ => DbResult.returns []) (some "USR01") =
      ⟨200, { mensaje := "No se encontraron cuentas para el usuario: USR01.",
              codigo := some "LIST-OK-EMPTY", status_code := 200,
              result := some [] }⟩ :=
  list_empty_with_filter (fun _ => DbResult.returns []) "USR01" (by decide) rfl

/-- C5: for every database behaviour, listing with the empty-string filter
produces the same response as listing with no filter: the service cleans
`''` to `None`, and the empty-result special case excludes `''` exactly as
it excludes `None`. -/
theorem list_blank_filter_eq_none (db : Option String → DbResult (List CuentaDetailsDTO)) :
    listar_cuentas db (some "") = listar_cuentas db none := by
  cases h : db none <;>
    simp [listar_cuentas, listar_cuentas_sp, limpiar_cod_usu, h]

/-- C5 witness: with a one-row database behaviour the two calls coincide. -/
theorem list_blank_filter_eq_none_witness :
    listar_cuentas (fun _ => DbResult.returns [⟨[("NroCta", "0001")]⟩]) (some "") =
      listar_cuentas (fun _ => DbResult.returns [⟨[("NroCta", "0001")]⟩]) none :=
  list_blank_filter_eq_none (fun _ => DbResult.returns [⟨[("NroCta", "0001")]⟩])

/-- C6: any non-`ValueError` exception makes each endpoint answer 500 with
its fixed generic envelope, which is independent of the exception's text:
two runs failing with different raw texts produce identical bodies, and
the raw text never reaches the client. -/
theorem unhandled_exception_500 (m mo : String) (datosC : CuentaCreationData)
    (datosU : CuentaEstadoUpdate) (cod_usu : Option String) :
    crear_nueva_cuenta (DbResult.raises (Exc.otherError m)) datosC =
      ⟨500, { mensaje := "Ocurrió un error interno del servidor.",
              codigo := some "", status_code := 500 }⟩ ∧
    listar_cuentas (fun _ => DbResult.raises (Exc.otherError m)) cod_usu =
      ⟨500, { mensaje := "Ocurrió un error interno del servidor durante la consulta.",
              codigo := some "SYS-500", status_code := 500 }⟩ ∧
    actualizar_estado (DbResult.raises (Exc.otherError m)) datosU =
      ⟨500, { mensaje := "Ocurrió un error interno del servidor.",
              codigo := some "", status_code := 500 }⟩ ∧
    crear_nueva_cuenta (DbResult.raises (Exc.otherError m)) datosC =
      crear_nueva_cuenta (DbResult.raises (Exc.otherError mo)) datosC ∧
    listar_cuentas (fun _ => DbResult.raises (Exc.otherError m)) cod_usu =
      listar_cuentas (fun _ => DbResult.raises (Exc.otherError mo)) cod_usu ∧
    actualizar_estado (DbResult.raises (Exc.otherError m)) datosU =
      actualizar_estado (DbResult.raises (Exc.otherError mo)) datosU := by
  simp [crear_nueva_cuenta, insertar_nueva_cuenta_sp, listar_cuentas,
    listar_cuentas_sp, actualizar_estado, actualizar_estado_cuenta_sp]

/-- C6 witness: two different driver errors during create give the same
client-visible response. -/
theorem unhandled_exception_500_witness :
    crear_nueva_cuenta (DbResult.raises (Exc.otherError "IntegrityError: clave duplicada"))
        ⟨"AH", "PEN", 100, "USR01"⟩ =
      crear_nueva_cuenta (DbResult.raises (Exc.otherError "OperationalError: sin conexión"))
        ⟨"AH", "PEN", 100, "USR01"⟩ :=
  (unhandled_exception_500 "IntegrityError: clave duplicada"
      "OperationalError: sin conexión" ⟨"AH", "PEN", 100, "USR01"⟩
      ⟨"0001", "B", "USR01"⟩ none).2.2.2.1

/-- C7: every response of every endpoint, on success and on every failure,
carries the `APIResponse` envelope whose `status_code` field equals the
HTTP status code of the response. -/
theorem envelope_status_code_invariant (datosC : CuentaCreationData)
    (datosU : CuentaEstadoUpdate) (dbC : DbResult (Option CreateRow))
    (dbL : Option String → DbResult (List CuentaDetailsDTO)) (cod_usu : Option String)
    (dbU : DbResult (Option String)) :
    (crear_nueva_cuenta dbC datosC).body.status_code =
      (crear_nueva_cuenta dbC datosC).status ∧
    (listar_cuentas dbL cod_usu).body.status_code =
      (listar_cuentas dbL cod_usu).status ∧
    (actualizar_estado dbU datosU).body.status_code =
      (actualizar_estado dbU datosU).status := by
  refine ⟨?_, ?_, ?_⟩
  · rcases dbC with e | r
    · rcases e with m | m <;> simp [crear_nueva_cuenta, insertar_nueva_cuenta_sp]
    · rcases r with _ | row
      · simp [crear_nueva_cuenta, insertar_nueva_cuenta_sp]
      · cases hb : pyStartswith (pyLower row.Mensaje) "éxito" <;>
          simp [crear_nueva_cuenta, insertar_nueva_cuenta_sp, hb]
  · rcases h : dbL (limpiar_cod_usu cod_usu) with e | lista
    · simp [listar_cuentas, listar_cuentas_sp, h]
    · rcases cod_usu with _ | u
      · simp [listar_cuentas, listar_cuentas_sp, h]
      · cases hc : lista.isEmpty && (u != "") <;>
          simp [listar_cuentas, listar_cuentas_sp, h, hc]
  · rcases dbU with e | r
    · rcases e with m | m <;> simp [actualizar_estado, actualizar_estado_cuenta_sp]
    · rcases r with _ | msg
      · simp [actualizar_estado, actualizar_estado_cuenta_sp]
      · cases hb : pyStartswith (pyLower msg) "éxito"
        · cases h4 : pyStartswith msg "Error: No se encontró" <;>
            simp [actualizar_estado, actualizar_estado_cuenta_sp, hb, h4]
        · simp [actualizar_estado, actualizar_estado_cuenta_sp, hb]

/-- C7 witness: the invariant at one concrete input of each endpoint. -/
theorem envelope_status_code_invariant_witness :
    (crear_nueva_cuenta (DbResult.returns none) ⟨"AH", "PEN", 100, "USR01"⟩).body.status_code =
      (crear_nueva_cuenta (DbResult.returns none) ⟨"AH", "PEN", 100, "USR01"⟩).status :=
  (envelope_status_code_invariant ⟨"AH", "PEN", 100, "USR01"⟩ ⟨"0001", "B", "USR01"⟩
      (DbResult.returns none) (fun _ => DbResult.returns []) none
      (DbResult.returns none)).1

/-- C8: every service call that ends in an exception — the declared
business `ValueError` or any other exception — rolls the session back
before re-raising the very same exception, and the success path performs
no rollback: the rollback flag equals the raised flag, and a
driver-raised exception is re-raised unchanged. -/
theorem service_rollback_contract (datosC : CuentaCreationData)
    (datosU : CuentaEstadoUpdate) (dbC : DbResult (Option CreateRow))
    (dbL : Option String → DbResult (List CuentaDetailsDTO)) (cod_usu : Option String)
    (dbU : DbResult (Option String)) :
    ((insertar_nueva_cuenta_sp dbC datosC).rolledBack =
        (insertar_nueva_cuenta_sp dbC datosC).raised) ∧
    ((listar_cuentas_sp dbL cod_usu).rolledBack =
        (listar_cuentas_sp dbL cod_usu).raised) ∧
    ((actualizar_estado_cuenta_sp dbU datosU).rolledBack =
        (actualizar_estado_cuenta_sp dbU datosU).raised) ∧
    (∀ e, dbC = DbResult.raises e →
        (insertar_nueva_cuenta_sp dbC datosC).result = Except.error e) ∧
    (∀ e, (∀ p, dbL p = DbResult.raises e) →
        (listar_cuentas_sp dbL cod_usu).result = Except.error e) ∧
    (∀ e, dbU = DbResult.raises e →
        (actualizar_estado_cuenta_sp dbU datosU).result = Except.error e) := by
  refine ⟨?_, ?_, ?_, ?_, ?_, ?_⟩
  · rcases dbC with e | r
    · simp [insertar_nueva_cuenta_sp, ServiceOutcome.raised]
    · rcases r with _ | row
      · simp [insertar_nueva_cuenta_sp, ServiceOutcome.raised]
      · cases hb : pyStartswith (pyLower row.Mensaje) "éxito" <;>
          simp [insertar_nueva_cuenta_sp, ServiceOutcome.raised, hb]
  · rcases h : dbL (limpiar_cod_usu cod_usu) with e | lista <;>
      simp [listar_cuentas_sp, ServiceOutcome.raised, h]
  · rcases dbU with e | r
    · simp [actualizar_estado_cuenta_sp, ServiceOutcome.raised]
    · rcases r with _ | msg
      · simp [actualizar_estado_cuenta_sp, ServiceOutcome.raised]
      · cases hb : pyStartswith (pyLower msg) "éxito" <;>
          simp [actualizar_estado_cuenta_sp, ServiceOutcome.raised, hb]
  · intro e he
    subst he
    simp [insertar_nueva_cuenta_sp]
  · intro e hall
    simp [listar_cuentas_sp, hall]
  · intro e he
    subst he
    simp [actualizar_estado_cuenta_sp]

/-- C8 witness: a driver failure during create is rolled back exactly
because it raised, and the exception is re-raised unchanged. -/
theorem service_rollback_contract_witness :
    ((insertar_nueva_cuenta_sp (DbResult.raises (Exc.otherError "OperationalError"))
        ⟨"AH", "PEN", 100, "USR01"⟩).rolledBack =
      (insertar_nueva_cuenta_sp (DbResult.raises (Exc.otherError "OperationalError"))
        ⟨"AH", "PEN", 100, "USR01"⟩).raised) ∧
    (insertar_nueva_cuenta_sp (DbResult.raises (Exc.otherError "OperationalError"))
        ⟨"AH", "PEN", 100, "USR01"⟩).result =
      Except.error (Exc.otherError "OperationalError") :=
  ⟨(service_rollback_contract ⟨"AH", "PEN", 100, "USR01"⟩ ⟨"0001", "B", "USR01"⟩
      (DbResult.raises (Exc.otherError "OperationalError"))
      (fun _ => DbResult.returns []) none (DbResult.returns none)).1,
   (service_rollback_contract ⟨"AH", "PEN", 100, "USR01"⟩ ⟨"0001", "B", "USR01"⟩
      (DbResult.raises (Exc.otherError "OperationalError"))
      (fun _ => DbResult.returns []) none (DbResult.returns none)).2.2.2.1
      (Exc.otherError "OperationalError") rfl⟩

/-- C9: when the follow-up SELECT of output parameters returns no row, the
create and update services raise a plain `Exception` (never the business
`ValueError`), so the endpoints answer 500 — not 400 and not 404. -/
theorem missing_output_row_500 (datosC : CuentaCreationData)
    (datosU : CuentaEstadoUpdate) :
    (∀ m, (insertar_nueva_cuenta_sp (DbResult.returns none) datosC).result ≠
        Except.error (Exc.valueError m)) ∧
    crear_nueva_cuenta (DbResult.returns none) datosC =
      ⟨500, { mensaje := "Ocurrió un error interno del servidor.",
              codigo := some "", status_code := 500 }⟩ ∧
    (∀ m, (actualizar_estado_cuenta_sp (DbResult.returns none) datosU).result ≠
        Except.error (Exc.valueError m)) ∧
    actualizar_estado (DbResult.returns none) datosU =
      ⟨500, { mensaje := "Ocurrió un error interno del servidor.",
              codigo := some "", status_code := 500 }⟩ := by
  refine ⟨?_, ?_, ?_, ?_⟩ <;>
    simp [crear_nueva_cuenta, insertar_nueva_cuenta_sp,
      actualizar_estado, actualizar_estado_cuenta_sp]

/-- C9 witness: the update endpoint answers 500 at one concrete
missing-row input. -/
theorem missing_output_row_500_witness :
    actualizar_estado (DbResult.returns none) ⟨"0001", "B", "USR01"⟩ =
      ⟨500, { mensaje := "Ocurrió un error interno del servidor.",
              codigo := some "", status_code := 500 }⟩ :=
  (missing_output_row_500 ⟨"AH", "PEN", 100, "USR01"⟩ ⟨"0001", "B", "USR01"⟩).2.2.2

/-- C10: a successful status-update call answers 200 with `codigo` equal to
the account number supplied in the request body (the update procedure's
only output parameter is the message; the service echoes the input). -/
theorem update_success_echoes_nro_cta (datos : CuentaEstadoUpdate) (msg : String)
    (h : pyStartswith (pyLower msg) "éxito" = true) :
    actualizar_estado (DbResult.returns (some msg)) datos =
      ⟨200, { mensaje := msg, codigo := some datos.nro_cta, status_code := 200 }⟩ := by
  simp [actualizar_estado, actualizar_estado_cuenta_sp, h]

/-- C10 witness: a successful update of account `0001` echoes `0001` as the
reference code. -/
theorem update_success_echoes_nro_cta_witness :
    actualizar_estado (DbResult.returns (some "Éxito: Estado actualizado."))
        ⟨"0001", "B", "USR01"⟩ =
      ⟨200, { mensaje := "Éxito: Estado actualizado.", codigo := some "0001",
              status_code := 200 }⟩ :=
  update_success_echoes_nro_cta ⟨"0001", "B", "USR01"⟩
    "Éxito: Estado actualizado." (by decide)
